import Mathlib

/-!
Shallow embedding of src/openhtf/exe/phasemanager.py: the PhaseOutcome
classification, the bounded phase-runner thread (PhaseExecutorThread), and the
sequencing loop (PhaseExecutor.ExecutePhases / _ExecuteOnePhase / Stop).

Python values that can reach PhaseOutcome are modelled by the inductive PyVal;
exceptions by PyExc.  Code that can raise to its caller is modelled in Except.
The work done by a phase on its own thread is modelled by a WorkResult, and
what the sequencing thread can observe of that thread at join time by a
ThreadStatus / ThreadState.  External collaborators (phase_data, test_record,
logging, gflags, mutablerecords) are modelled at their declared interfaces:
logging calls are dropped, the running_phase record write has no effect on the
state modelled here, and the _current_phase field carries its declared default
of None.
-/

namespace OpenHTF

/-- Modelled from the spec: the enumeration openhtf.PhaseResult is not under
src/.  Per the spec, a phase may return CONTINUE, REPEAT or FAIL; TIMEOUT and
ABORT exist but are not legal phase returns (valid_phase_return is false). -/
inductive PhaseResult where
  | CONTINUE
  | REPEAT
  | FAIL
  | TIMEOUT
  | ABORT
deriving DecidableEq, Repr

/-- Modelled from the spec: valid_phase_return marks the closed set of values
a phase may legally return. -/
def PhaseResult.valid_phase_return : PhaseResult → Bool
  | PhaseResult.CONTINUE => true
  | PhaseResult.REPEAT => true
  | PhaseResult.FAIL => true
  | PhaseResult.TIMEOUT => false
  | PhaseResult.ABORT => false

/-- Python exception values appearing in phasemanager.py. -/
inductive PyExc where
  | threadTerminationError
  | invalidPhaseResultError
  | userError (msg : String)
deriving DecidableEq, Repr

/-- The universe of Python values that can be handed to PhaseOutcome: the
timeout sentinel None, an Exception instance, a PhaseResult enum value, or
some other value such as a raw integer or a string. -/
inductive PyVal where
  | none
  | exc (e : PyExc)
  | result (r : PhaseResult)
  | int (n : Int)
  | str (s : String)
deriving DecidableEq, Repr

/-- PhaseOutcome is a namedtuple with the single field phase_result. -/
structure PhaseOutcome where
  phase_result : PyVal
deriving DecidableEq, Repr

/-- The underlying Python tuple of the namedtuple: one slot. -/
def PhaseOutcome.toTuple (o : PhaseOutcome) : List PyVal :=
  [o.phase_result]

/-- The acceptance condition of PhaseOutcome.init, lines 80 to 83: None, an
Exception instance, or a PhaseResult with valid_phase_return. -/
def isValidPhaseResult : PyVal → Bool
  | PyVal.none => true
  | PyVal.exc _ => true
  | PyVal.result r => r.valid_phase_return
  | PyVal.int _ => false
  | PyVal.str _ => false

/-- PhaseOutcome construction, lines 79 to 85: raises InvalidPhaseResultError
unless the value passes the acceptance condition. -/
def mkPhaseOutcome (v : PyVal) : Except PyExc PhaseOutcome :=
  if isValidPhaseResult v then Except.ok (PhaseOutcome.mk v)
  else Except.error PyExc.invalidPhaseResultError

/-- Line 90: phase_result is None means the phase timed out. -/
def PhaseOutcome.is_timeout (o : PhaseOutcome) : Bool :=
  o.phase_result = PyVal.none

/-- Line 95: phase_result is an Exception instance means the phase raised. -/
def PhaseOutcome.raised_exception (o : PhaseOutcome) : Bool :=
  match o.phase_result with
  | PyVal.exc _ => true
  | _ => false

/-- What the work callable of a phase does when run: return a value (PyVal.none
models a phase with no return statement) or raise an exception. -/
inductive WorkResult where
  | returns (v : PyVal)
  | raises (e : PyExc)
deriving DecidableEq, Repr

/-- What the sequencing thread can observe of the runner thread once the join
deadline has passed: the thread ran its proc to the end, is still alive, or
was killed before it could record an outcome. -/
inductive ThreadStatus where
  | finished (w : WorkResult)
  | alive
  | killed
deriving DecidableEq, Repr

/-- The state the runner thread leaves behind: the recorded phase outcome (the
field _phase_outcome, None until set) and whether the exit stack of the phase
execution context was popped and closed. -/
structure ThreadResult where
  phase_outcome : Option PhaseOutcome
  exitStackClosed : Bool
deriving DecidableEq, Repr

/-- PhaseExecutorThread._ThreadProc, lines 112 to 124, together with the
dispatch of _ThreadException, lines 126 to 128.  Modelled from the spec for
the part played by threads.KillableThread, which is not under src/: it runs
_ThreadProc and hands any exception raised there to _ThreadException.  The
proc calls the phase, defaults a None return to CONTINUE, closes the exit
stack, and only then constructs the PhaseOutcome; if that construction raises,
_ThreadException stores the exception as the outcome instead (with the stack
already closed).  If the work itself raises, _ThreadException stores the
exception without the stack having been closed. -/
def threadRun (w : WorkResult) : Except PyExc ThreadResult :=
  match w with
  | WorkResult.raises e =>
      (mkPhaseOutcome (PyVal.exc e)).map
        (fun o => ThreadResult.mk (Option.some o) false)
  | WorkResult.returns v =>
      let phase_return := if v = PyVal.none then PyVal.result PhaseResult.CONTINUE else v
      match mkPhaseOutcome phase_return with
      | Except.ok o => Except.ok (ThreadResult.mk (Option.some o) true)
      | Except.error e =>
          (mkPhaseOutcome (PyVal.exc e)).map
            (fun o => ThreadResult.mk (Option.some o) true)

/-- What JoinOrDie reads after the join call: the _phase_outcome field and
whether the thread is still alive. -/
structure ThreadState where
  phase_outcome : Option PhaseOutcome
  alive : Bool
deriving DecidableEq, Repr

/-- The thread state JoinOrDie observes for each way the attempt can have
gone: a finished proc leaves the outcome threadRun recorded (or none, had the
recording itself failed); a thread that outran the deadline is alive with no
outcome; a killed thread is dead with no outcome. -/
def threadStateAtJoin : ThreadStatus → ThreadState
  | ThreadStatus.finished w =>
      ThreadState.mk
        (match threadRun w with
         | Except.ok r => r.phase_outcome
         | Except.error _ => Option.none)
        false
  | ThreadStatus.alive => ThreadState.mk Option.none true
  | ThreadStatus.killed => ThreadState.mk Option.none false

/-- Default of the flag phase_default_timeout_ms, lines 49 to 50. -/
def phase_default_timeout_ms : Nat := 3 * 60 * 1000

/-- Deadline selection in JoinOrDie, lines 132 to 135: the phase option
timeout_s when it is not None, else the flag value divided by 1000.0. -/
def joinDeadline (default_ms : Nat) (timeout_s : Option Rat) : Rat :=
  match timeout_s with
  | Option.some t => t
  | Option.none => (default_ms : Rat) / 1000

/-- PhaseExecutorThread.JoinOrDie, lines 130 to 147, after the join call: if
_phase_outcome is a PhaseOutcome, return it; else if the thread is alive,
issue Kill (the Bool of the pair) and return the timeout outcome
PhaseOutcome(None); else the thread was killed, return
PhaseOutcome(ThreadTerminationError()).  The PhaseOutcome constructions go
through the fallible constructor, as in the source. -/
def JoinOrDie (st : ThreadState) : Except PyExc (PhaseOutcome × Bool) :=
  match st.phase_outcome with
  | Option.some o => Except.ok (o, false)
  | Option.none =>
      if st.alive then
        (mkPhaseOutcome PyVal.none).map (fun o => (o, true))
      else
        (mkPhaseOutcome (PyVal.exc PyExc.threadTerminationError)).map (fun o => (o, false))

/-- The phase options consulted by the executor: options.run_if (None when
absent, else a predicate whose evaluation on the phase data is a Bool) and
options.timeout_s. -/
structure PhaseOptions where
  run_if : Option Bool
  timeout_s : Option Rat
deriving DecidableEq, Repr

/-- A phase as the executor consumes it: a name, its options, and the
behaviour of its work when an attempt is run (what the sequencing thread
observes of the runner thread at join time). -/
structure Phase where
  name : String
  options : PhaseOptions
  status : ThreadStatus
deriving DecidableEq, Repr

/-- The guard test of line 183: the phase is skipped when run_if is present
(truthy) and its evaluation is falsey. -/
def guardSkips : Option Bool → Bool
  | Option.some b => !b
  | Option.none => false

/-- PhaseExecutor._ExecuteOnePhase, lines 178 to 203, on the pending queue:
skip (pop, no outcome) when the guard is present and falsey; otherwise run the
phase to an outcome via JoinOrDie and pop the front of the queue exactly when
the outcome phase_result equals PhaseResult.CONTINUE. -/
def ExecuteOnePhase (pending : List Phase) (phase : Phase) :
    Except PyExc (Option PhaseOutcome × List Phase) :=
  if guardSkips phase.options.run_if then
    Except.ok (Option.none, pending.drop 1)
  else
    (JoinOrDie (threadStateAtJoin phase.status)).map (fun p =>
      if p.1.phase_result = PyVal.result PhaseResult.CONTINUE then
        (Option.some p.1, pending.drop 1)
      else
        (Option.some p.1, pending))

/-- Python truthiness of the value _ExecuteOnePhase hands back, as tested by
line 174: None is falsey; a namedtuple is truthy exactly when its length is
nonzero. -/
def pyTruthyOutcome : Option PhaseOutcome → Bool
  | Option.none => false
  | Option.some o => decide (o.toTuple.length ≠ 0)

/-- PhaseExecutor.ExecutePhases, lines 166 to 176: while the pending queue is
non-empty, run its head; a falsey result is dropped (continue), a truthy one
is yielded.  The generator is modelled with fuel so that the claim theorems
can speak about runs the source loop does not terminate on; fuel exhaustion
returns the outcomes emitted so far with the remaining queue. -/
def ExecutePhases (fuel : Nat) (pending : List Phase) :
    Except PyExc (List PhaseOutcome × List Phase) :=
  match fuel with
  | 0 => Except.ok ([], pending)
  | Nat.succ f =>
      match pending with
      | [] => Except.ok ([], [])
      | phase :: _ =>
          Except.bind (ExecuteOnePhase pending phase) (fun rp =>
            Except.bind (ExecutePhases f rp.2) (fun lf =>
              Except.ok ((if pyTruthyOutcome rp.1 then rp.1.toList else []) ++ lf.1, lf.2)))

/-- PhaseExecutor state: the pending queue and the _current_phase reference to
the runner of the currently running phase (declared default None). -/
structure PhaseExecutor where
  pending_phases : List Phase
  current_phase : Option Phase
deriving DecidableEq, Repr

/-- PhaseExecutor.Stop, lines 205 to 208: when _current_phase is set, forward
Kill() to it (the Bool of the pair), else do nothing.  No other state is
touched. -/
def Stop (ex : PhaseExecutor) : PhaseExecutor × Bool :=
  match ex.current_phase with
  | Option.some _ => (ex, true)
  | Option.none => (ex, false)

/-- A phase with no guard and no timeout whose work returns CONTINUE. -/
def continuePhase : Phase :=
  Phase.mk "A" (PhaseOptions.mk Option.none Option.none)
    (ThreadStatus.finished (WorkResult.returns (PyVal.result PhaseResult.CONTINUE)))

/-- A phase with no guard and no timeout whose work returns FAIL. -/
def failPhase : Phase :=
  Phase.mk "F" (PhaseOptions.mk Option.none Option.none)
    (ThreadStatus.finished (WorkResult.returns (PyVal.result PhaseResult.FAIL)))

/-- A phase whose guard predicate is present and evaluates falsey. -/
def skipPhase : Phase :=
  Phase.mk "S" (PhaseOptions.mk (Option.some false) Option.none)
    (ThreadStatus.finished (WorkResult.returns PyVal.none))

/-- A phase whose work raises an exception. -/
def raisePhase : Phase :=
  Phase.mk "R" (PhaseOptions.mk Option.none Option.none)
    (ThreadStatus.finished (WorkResult.raises (PyExc.userError "boom")))

/-- A phase whose work is still running when the join deadline passes. -/
def timeoutPhase : Phase :=
  Phase.mk "T" (PhaseOptions.mk Option.none (Option.some 1)) ThreadStatus.alive

/-- A phase whose work returns a raw integer, not a legal phase result. -/
def badReturnPhase : Phase :=
  Phase.mk "B" (PhaseOptions.mk Option.none Option.none)
    (ThreadStatus.finished (WorkResult.returns (PyVal.int 5)))

/-! Helper lemmas shared by the claim theorems. -/

theorem join_ok (st : ThreadState) : ∃ p, JoinOrDie st = Except.ok p := by
  obtain ⟨po, al⟩ := st
  cases po <;> cases al <;> exact ⟨_, rfl⟩

theorem ExecuteOnePhase_run_eq (pending : List Phase) (phase : Phase)
    (hg : guardSkips phase.options.run_if = false) (o : PhaseOutcome) (k : Bool)
    (hj : JoinOrDie (threadStateAtJoin phase.status) = Except.ok (o, k)) :
    ExecuteOnePhase pending phase =
      Except.ok (Option.some o,
        if o.phase_result = PyVal.result PhaseResult.CONTINUE then pending.drop 1
        else pending) := by
  by_cases hc : o.phase_result = PyVal.result PhaseResult.CONTINUE <;>
    simp [ExecuteOnePhase, hg, hj, hc, Except.map]

theorem exec_one_ok (pending : List Phase) (phase : Phase) :
    ∃ r, ExecuteOnePhase pending phase = Except.ok r := by
  cases hg : guardSkips phase.options.run_if
  · obtain ⟨⟨o, k⟩, hj⟩ := join_ok (threadStateAtJoin phase.status)
    exact ⟨_, ExecuteOnePhase_run_eq pending phase hg o k hj⟩
  · exact ⟨(Option.none, pending.drop 1), by simp [ExecuteOnePhase, hg]⟩

theorem mkPhaseOutcome_invalid (v : PyVal) (hbad : isValidPhaseResult v = false) :
    mkPhaseOutcome v = Except.error PyExc.invalidPhaseResultError := by
  simp [mkPhaseOutcome, hbad]

theorem threadRun_invalid (v : PyVal) (hv : v ≠ PyVal.none)
    (hbad : isValidPhaseResult v = false) :
    threadRun (WorkResult.returns v) =
      Except.ok (ThreadResult.mk
        (Option.some (PhaseOutcome.mk (PyVal.exc PyExc.invalidPhaseResultError))) true) := by
  simp only [threadRun]
  rw [if_neg hv, mkPhaseOutcome_invalid v hbad]
  rfl

theorem threadStateAtJoin_invalid (v : PyVal) (hv : v ≠ PyVal.none)
    (hbad : isValidPhaseResult v = false) :
    threadStateAtJoin (ThreadStatus.finished (WorkResult.returns v)) =
      ThreadState.mk
        (Option.some (PhaseOutcome.mk (PyVal.exc PyExc.invalidPhaseResultError))) false := by
  simp only [threadStateAtJoin]
  rw [threadRun_invalid v hv hbad]

theorem exec_phases_ok (fuel : Nat) :
    ∀ pending, ∃ r, ExecutePhases fuel pending = Except.ok r := by
  induction fuel with
  | zero => exact fun pending => ⟨_, rfl⟩
  | succ f ih =>
      intro pending
      cases pending with
      | nil => exact ⟨_, rfl⟩
      | cons phase rest =>
          obtain ⟨r, hr⟩ := exec_one_ok (phase :: rest) phase
          obtain ⟨lf, hlf⟩ := ih r.2
          refine ⟨((if pyTruthyOutcome r.1 then r.1.toList else []) ++ lf.1, lf.2), ?_⟩
          show Except.bind (ExecuteOnePhase (phase :: rest) phase) _ = _
          rw [hr]
          show Except.bind (ExecutePhases f r.2) _ = _
          rw [hlf]
          rfl

/-! The claim theorems. -/

/-- C1, counterexample: the sequencing loop does not halt after a FAIL
outcome.  On the one-phase queue whose phase returns FAIL, two loop
iterations emit the FAIL outcome twice: a second attempt of the phase is
started after the first FAIL was emitted, and the queue is never abandoned,
so the yielded sequence does not end at the first FAIL. -/
theorem c1_counterexample :
    ExecutePhases 2 [failPhase] =
      Except.ok ([PhaseOutcome.mk (PyVal.result PhaseResult.FAIL),
                  PhaseOutcome.mk (PyVal.result PhaseResult.FAIL)],
                 [failPhase]) := rfl

/-- C1, amended: once an executed attempt produces an Outcome whose
phase_result is not CONTINUE (FAIL, REPEAT, a Timeout None, or an Error),
the phase is left at the head of the queue and the loop does not halt: the
next iteration of ExecutePhases re-executes the same phase with the queue
unchanged.  Halting on terminal Outcomes is left to the consumer of the
yielded sequence. -/
theorem c1_amended (fuel : Nat) (phase : Phase) (rest : List Phase)
    (o : PhaseOutcome) (k : Bool)
    (hg : guardSkips phase.options.run_if = false)
    (hj : JoinOrDie (threadStateAtJoin phase.status) = Except.ok (o, k))
    (hnc : o.phase_result ≠ PyVal.result PhaseResult.CONTINUE) :
    ExecuteOnePhase (phase :: rest) phase = Except.ok (Option.some o, phase :: rest) ∧
    ExecutePhases (fuel + 1) (phase :: rest) =
      (ExecutePhases fuel (phase :: rest)).map (fun lf => (o :: lf.1, lf.2)) := by
  have h1 : ExecuteOnePhase (phase :: rest) phase =
      Except.ok (Option.some o, phase :: rest) := by
    have h := ExecuteOnePhase_run_eq (phase :: rest) phase hg o k hj
    rwa [if_neg hnc] at h
  refine ⟨h1, ?_⟩
  show Except.bind (ExecuteOnePhase (phase :: rest) phase) _ = _
  rw [h1]
  show Except.bind (ExecutePhases fuel (phase :: rest)) _ = _
  cases h2 : ExecutePhases fuel (phase :: rest) with
  | ok lf => rfl
  | error e => rfl

/-- C1, witness for the amended theorem at the concrete FAIL phase. -/
theorem c1_witness :
    ExecuteOnePhase (failPhase :: []) failPhase =
      Except.ok (Option.some (PhaseOutcome.mk (PyVal.result PhaseResult.FAIL)),
                 failPhase :: []) ∧
    ExecutePhases (1 + 1) (failPhase :: []) =
      (ExecutePhases 1 (failPhase :: [])).map
        (fun lf => (PhaseOutcome.mk (PyVal.result PhaseResult.FAIL) :: lf.1, lf.2)) :=
  c1_amended 1 failPhase [] (PhaseOutcome.mk (PyVal.result PhaseResult.FAIL)) false
    rfl rfl (by decide)

/-- C2: phase-level failures are converted into Outcomes that flow through
the yielded sequence, and ExecutePhases never raises to its caller.  First
conjunct: every run of ExecutePhases returns (never an exception).  The
remaining conjuncts: an executed phase whose work raises yields the Error
Outcome carrying that exception; one that outruns its deadline yields the
Timeout Outcome; one that returns an invalid value yields the Error Outcome
carrying InvalidPhaseResultError.  In each case the Outcome is handed back
for yielding, and no exception escapes. -/
theorem c2 :
    (∀ (fuel : Nat) (pending : List Phase),
      ∃ r, ExecutePhases fuel pending = Except.ok r) ∧
    (∀ (pending : List Phase) (phase : Phase) (e : PyExc),
      guardSkips phase.options.run_if = false →
      phase.status = ThreadStatus.finished (WorkResult.raises e) →
      ExecuteOnePhase pending phase =
        Except.ok (Option.some (PhaseOutcome.mk (PyVal.exc e)), pending)) ∧
    (∀ (pending : List Phase) (phase : Phase),
      guardSkips phase.options.run_if = false →
      phase.status = ThreadStatus.alive →
      ExecuteOnePhase pending phase =
        Except.ok (Option.some (PhaseOutcome.mk PyVal.none), pending)) ∧
    (∀ (pending : List Phase) (phase : Phase) (v : PyVal),
      guardSkips phase.options.run_if = false →
      phase.status = ThreadStatus.finished (WorkResult.returns v) →
      v ≠ PyVal.none → isValidPhaseResult v = false →
      ExecuteOnePhase pending phase =
        Except.ok (Option.some (PhaseOutcome.mk (PyVal.exc PyExc.invalidPhaseResultError)),
                   pending)) := by
  refine ⟨fun fuel pending => exec_phases_ok fuel pending, ?_, ?_, ?_⟩
  · intro pending phase e hg hs
    have hj : JoinOrDie (threadStateAtJoin phase.status) =
        Except.ok (PhaseOutcome.mk (PyVal.exc e), false) := by
      rw [hs]
      rfl
    have h := ExecuteOnePhase_run_eq pending phase hg _ _ hj
    rwa [if_neg (by simp)] at h
  · intro pending phase hg hs
    have hj : JoinOrDie (threadStateAtJoin phase.status) =
        Except.ok (PhaseOutcome.mk PyVal.none, true) := by
      rw [hs]
      rfl
    have h := ExecuteOnePhase_run_eq pending phase hg _ _ hj
    rwa [if_neg (by simp)] at h
  · intro pending phase v hg hs hv hbad
    have hj : JoinOrDie (threadStateAtJoin phase.status) =
        Except.ok (PhaseOutcome.mk (PyVal.exc PyExc.invalidPhaseResultError), false) := by
      rw [hs, threadStateAtJoin_invalid v hv hbad]
      rfl
    have h := ExecuteOnePhase_run_eq pending phase hg _ _ hj
    rwa [if_neg (by simp)] at h

/-- C2, witness: the three failure conversions and a loop run at concrete
phases. -/
theorem c2_witness :
    (∃ r, ExecutePhases 1 [raisePhase] = Except.ok r) ∧
    ExecuteOnePhase [raisePhase] raisePhase =
      Except.ok (Option.some (PhaseOutcome.mk (PyVal.exc (PyExc.userError "boom"))),
                 [raisePhase]) ∧
    ExecuteOnePhase [timeoutPhase] timeoutPhase =
      Except.ok (Option.some (PhaseOutcome.mk PyVal.none), [timeoutPhase]) ∧
    ExecuteOnePhase [badReturnPhase] badReturnPhase =
      Except.ok (Option.some (PhaseOutcome.mk (PyVal.exc PyExc.invalidPhaseResultError)),
                 [badReturnPhase]) :=
  ⟨c2.1 1 [raisePhase],
   c2.2.1 [raisePhase] raisePhase (PyExc.userError "boom") rfl rfl,
   c2.2.2.1 [timeoutPhase] timeoutPhase rfl rfl,
   c2.2.2.2 [badReturnPhase] badReturnPhase (PyVal.int 5) rfl rfl (by decide) rfl⟩

/-- C3: constructing a PhaseOutcome succeeds exactly for the timeout sentinel
None, an Exception instance, or one of the three valid phase returns
CONTINUE, REPEAT, FAIL; every other value (a raw integer, a string, the
non-returnable TIMEOUT and ABORT) makes the construction raise
InvalidPhaseResultError. -/
theorem c3 :
    (∀ v : PyVal, (∃ o, mkPhaseOutcome v = Except.ok o) ↔
      (v = PyVal.none ∨ (∃ e, v = PyVal.exc e) ∨
       v = PyVal.result PhaseResult.CONTINUE ∨
       v = PyVal.result PhaseResult.REPEAT ∨
       v = PyVal.result PhaseResult.FAIL)) ∧
    (∀ v : PyVal, (¬ ∃ o, mkPhaseOutcome v = Except.ok o) →
      mkPhaseOutcome v = Except.error PyExc.invalidPhaseResultError) ∧
    mkPhaseOutcome (PyVal.int 7) = Except.error PyExc.invalidPhaseResultError ∧
    mkPhaseOutcome (PyVal.str "x") = Except.error PyExc.invalidPhaseResultError ∧
    mkPhaseOutcome (PyVal.result PhaseResult.TIMEOUT) =
      Except.error PyExc.invalidPhaseResultError ∧
    mkPhaseOutcome (PyVal.result PhaseResult.ABORT) =
      Except.error PyExc.invalidPhaseResultError := by
  refine ⟨?_, ?_, rfl, rfl, rfl, rfl⟩
  · intro v
    cases v with
    | none => simp [mkPhaseOutcome, isValidPhaseResult]
    | exc e => simp [mkPhaseOutcome, isValidPhaseResult]
    | result r =>
        cases r <;>
          simp [mkPhaseOutcome, isValidPhaseResult, PhaseResult.valid_phase_return]
    | int n => simp [mkPhaseOutcome, isValidPhaseResult]
    | str s => simp [mkPhaseOutcome, isValidPhaseResult]
  · intro v h
    cases v with
    | none => exact absurd ⟨_, rfl⟩ h
    | exc e => exact absurd ⟨_, rfl⟩ h
    | result r =>
        cases r with
        | CONTINUE => exact absurd ⟨_, rfl⟩ h
        | REPEAT => exact absurd ⟨_, rfl⟩ h
        | FAIL => exact absurd ⟨_, rfl⟩ h
        | TIMEOUT => rfl
        | ABORT => rfl
    | int n => rfl
    | str s => rfl

/-- C3, witness: a raw integer is rejected with InvalidPhaseResultError. -/
theorem c3_witness :
    mkPhaseOutcome (PyVal.int 3) = Except.error PyExc.invalidPhaseResultError :=
  c3.2.1 (PyVal.int 3) (by simp [mkPhaseOutcome, isValidPhaseResult])

/-- C4: JoinOrDie returns exactly one PhaseOutcome for every observable
thread state: the captured return value for completed work with a valid
return (a None return defaulting to CONTINUE), the Error Outcome for raised
work, the Timeout Outcome together with the Kill request (the true flag)
when the deadline passed with the work still alive, and the
termination-error Outcome when the work was already killed. -/
theorem c4 :
    (∀ st : ThreadStatus, ∃ p, JoinOrDie (threadStateAtJoin st) = Except.ok p) ∧
    (∀ v : PyVal, v ≠ PyVal.none → isValidPhaseResult v = true →
      JoinOrDie (threadStateAtJoin (ThreadStatus.finished (WorkResult.returns v))) =
        Except.ok (PhaseOutcome.mk v, false)) ∧
    (JoinOrDie (threadStateAtJoin (ThreadStatus.finished (WorkResult.returns PyVal.none))) =
      Except.ok (PhaseOutcome.mk (PyVal.result PhaseResult.CONTINUE), false)) ∧
    (∀ e : PyExc,
      JoinOrDie (threadStateAtJoin (ThreadStatus.finished (WorkResult.raises e))) =
        Except.ok (PhaseOutcome.mk (PyVal.exc e), false)) ∧
    (JoinOrDie (threadStateAtJoin ThreadStatus.alive) =
      Except.ok (PhaseOutcome.mk PyVal.none, true)) ∧
    (JoinOrDie (threadStateAtJoin ThreadStatus.killed) =
      Except.ok (PhaseOutcome.mk (PyVal.exc PyExc.threadTerminationError), false)) := by
  refine ⟨fun st => join_ok (threadStateAtJoin st), ?_, rfl, fun e => rfl, rfl, rfl⟩
  intro v hv hvalid
  simp [JoinOrDie, threadStateAtJoin, threadRun, hv, mkPhaseOutcome, hvalid, Except.map]

/-- C4, witness: a completed attempt returning REPEAT yields that value. -/
theorem c4_witness :
    JoinOrDie (threadStateAtJoin
        (ThreadStatus.finished (WorkResult.returns (PyVal.result PhaseResult.REPEAT)))) =
      Except.ok (PhaseOutcome.mk (PyVal.result PhaseResult.REPEAT), false) :=
  c4.2.1 (PyVal.result PhaseResult.REPEAT) (by decide) rfl

/-- C5: for an executed attempt the queue handed back is the input queue with
the front popped exactly when the Outcome phase_result is CONTINUE, and the
unchanged input queue otherwise (REPEAT included); no other mutation can
occur. -/
theorem c5 (pending q : List Phase) (phase : Phase) (o : PhaseOutcome)
    (hg : guardSkips phase.options.run_if = false)
    (hx : ExecuteOnePhase pending phase = Except.ok (Option.some o, q)) :
    q = if o.phase_result = PyVal.result PhaseResult.CONTINUE then pending.drop 1
        else pending := by
  obtain ⟨⟨o2, k⟩, hj⟩ := join_ok (threadStateAtJoin phase.status)
  rw [ExecuteOnePhase_run_eq pending phase hg o2 k hj] at hx
  simp only [Except.ok.injEq, Prod.mk.injEq, Option.some.injEq] at hx
  obtain ⟨ho, hq⟩ := hx
  subst ho
  exact hq.symm

/-- C5, witness: the CONTINUE phase pops the front of the queue. -/
theorem c5_witness :
    ([] : List Phase) =
      if (PhaseOutcome.mk (PyVal.result PhaseResult.CONTINUE)).phase_result =
          PyVal.result PhaseResult.CONTINUE
      then [continuePhase].drop 1 else [continuePhase] :=
  c5 [continuePhase] [] continuePhase
    (PhaseOutcome.mk (PyVal.result PhaseResult.CONTINUE)) rfl rfl

/-- C6, counterexample: a configured timeout of zero (or a negative value) is
used as the deadline itself, not replaced by the process-wide default: the
source tests timeout_s against None only, so Option.some 0 gives deadline 0
while the default deadline is 180 seconds. -/
theorem c6_counterexample :
    joinDeadline phase_default_timeout_ms (Option.some 0) = 0 ∧
    joinDeadline phase_default_timeout_ms Option.none = 180 ∧
    joinDeadline phase_default_timeout_ms (Option.some 0) ≠
      joinDeadline phase_default_timeout_ms Option.none ∧
    joinDeadline phase_default_timeout_ms (Option.some (-2)) = -2 := by
  refine ⟨rfl, ?_, ?_, rfl⟩
  · show ((3 * 60 * 1000 : Nat) : Rat) / 1000 = 180
    norm_num
  · show (0 : Rat) ≠ ((3 * 60 * 1000 : Nat) : Rat) / 1000
    norm_num

/-- C6, amended: the wait deadline is the phase timeout_s whenever one is
configured, whatever its value, zero and negative values included; the
process-wide default of phase_default_timeout_ms divided by 1000 applies
exactly when timeout_s is None. -/
theorem c6_amended :
    (∀ (d : Nat) (t : Rat), joinDeadline d (Option.some t) = t) ∧
    (∀ d : Nat, joinDeadline d Option.none = (d : Rat) / 1000) :=
  ⟨fun _ _ => rfl, fun _ => rfl⟩

/-- C7, counterexample: when the work raises, the Error Outcome is finalized
by _ThreadException with the exit stack not popped and closed (the
exitStackClosed field is false), so resources are not released on the
raised-error exit path. -/
theorem c7_counterexample :
    threadRun (WorkResult.raises (PyExc.userError "boom")) =
      Except.ok (ThreadResult.mk
        (Option.some (PhaseOutcome.mk (PyVal.exc (PyExc.userError "boom")))) false) := rfl

/-- C7, amended: the exit stack is popped and closed before the Outcome is
finalized on the normal-return exit path only (including an invalid return,
where the stack is closed before the failing outcome construction); when the
work raises, the Error Outcome is finalized without the exit stack being
closed. -/
theorem c7_amended :
    (∀ v : PyVal, ∃ o : PhaseOutcome,
      threadRun (WorkResult.returns v) =
        Except.ok (ThreadResult.mk (Option.some o) true)) ∧
    (∀ e : PyExc,
      threadRun (WorkResult.raises e) =
        Except.ok (ThreadResult.mk
          (Option.some (PhaseOutcome.mk (PyVal.exc e))) false)) := by
  constructor
  · intro v
    by_cases hn : v = PyVal.none
    · exact ⟨PhaseOutcome.mk (PyVal.result PhaseResult.CONTINUE), by subst hn; rfl⟩
    · by_cases hbad : isValidPhaseResult v = true
      · exact ⟨PhaseOutcome.mk v, by
          simp only [threadRun]
          rw [if_neg hn]
          simp [mkPhaseOutcome, hbad]⟩
      · have hb : isValidPhaseResult v = false := by
          cases h2 : isValidPhaseResult v
          · rfl
          · exact absurd h2 hbad
        exact ⟨PhaseOutcome.mk (PyVal.exc PyExc.invalidPhaseResultError),
          threadRun_invalid v hn hb⟩
  · intro e
    rfl

/-- C8: a phase whose guard is present and falsey is popped from the front of
the queue with no Outcome handed back, the loop moves straight on to the rest
of the queue, and the work of the phase is never consulted (the same equation
holds for the phase with any work behaviour substituted). -/
theorem c8 (pending rest : List Phase) (phase : Phase) (fuel : Nat)
    (st2 : ThreadStatus)
    (hg : guardSkips phase.options.run_if = true) :
    ExecuteOnePhase pending phase = Except.ok (Option.none, pending.drop 1) ∧
    ExecutePhases (fuel + 1) (phase :: rest) = ExecutePhases fuel rest ∧
    ExecuteOnePhase pending (Phase.mk phase.name phase.options st2) =
      Except.ok (Option.none, pending.drop 1) := by
  have h1 : ExecuteOnePhase pending phase = Except.ok (Option.none, pending.drop 1) := by
    simp [ExecuteOnePhase, hg]
  have h3 : ExecuteOnePhase pending (Phase.mk phase.name phase.options st2) =
      Except.ok (Option.none, pending.drop 1) := by
    simp [ExecuteOnePhase, hg]
  refine ⟨h1, ?_, h3⟩
  have h1b : ExecuteOnePhase (phase :: rest) phase = Except.ok (Option.none, rest) := by
    simp [ExecuteOnePhase, hg]
  show Except.bind (ExecuteOnePhase (phase :: rest) phase) _ = _
  rw [h1b]
  show Except.bind (ExecutePhases fuel rest) _ = _
  cases h2 : ExecutePhases fuel rest with
  | ok lf => rfl
  | error e => rfl

/-- C8, witness: the skipped phase at the head of a two-phase queue. -/
theorem c8_witness :
    ExecuteOnePhase [skipPhase, continuePhase] skipPhase =
      Except.ok (Option.none, [skipPhase, continuePhase].drop 1) ∧
    ExecutePhases (0 + 1) (skipPhase :: [continuePhase]) =
      ExecutePhases 0 [continuePhase] ∧
    ExecuteOnePhase [skipPhase, continuePhase]
        (Phase.mk skipPhase.name skipPhase.options ThreadStatus.alive) =
      Except.ok (Option.none, [skipPhase, continuePhase].drop 1) :=
  c8 [skipPhase, continuePhase] [continuePhase] skipPhase 0 ThreadStatus.alive rfl

/-- C9: Stop forwards exactly one Kill request when a current phase runner is
set, is a no-op when none is, and in either case leaves the whole executor
state, the pending queue included, unchanged. -/
theorem c9 (ex : PhaseExecutor) :
    (Stop ex).1 = ex ∧
    (Stop ex).1.pending_phases = ex.pending_phases ∧
    ((Stop ex).2 = true ↔ ex.current_phase.isSome = true) := by
  obtain ⟨ps, cp⟩ := ex
  cases cp <;> simp [Stop]

/-- C10: every constructible PhaseOutcome is a one-field tuple and therefore
truthy in the Python emptiness test of ExecutePhases, the Timeout Outcome
with phase_result None and the Error Outcomes included; None alone is falsey,
so the test suppresses exactly the guard-false skip case and never drops a
genuine Outcome from the yielded sequence. -/
theorem c10 :
    (∀ o : PhaseOutcome, o.toTuple.length = 1 ∧ pyTruthyOutcome (Option.some o) = true) ∧
    pyTruthyOutcome (Option.some (PhaseOutcome.mk PyVal.none)) = true ∧
    pyTruthyOutcome (Option.some (PhaseOutcome.mk (PyVal.exc PyExc.threadTerminationError))) = true ∧
    pyTruthyOutcome Option.none = false ∧
    (∀ result : Option PhaseOutcome,
      (if pyTruthyOutcome result then result.toList else []) = result.toList) := by
  refine ⟨fun o => ⟨rfl, rfl⟩, rfl, rfl, rfl, ?_⟩
  intro r
  cases r with
  | none => rfl
  | some o => rfl

end OpenHTF
